import Mathlib

/-
Verification of the slidev-ai core against its specification.

The development shallowly embeds the TypeScript sources of
packages/core/src (slidevParser.ts, llm.ts cleanup, layoutHeuristic.ts,
orchestrator.ts) as executable Lean definitions over `List Char`
(JavaScript strings), and proves or refutes the specified properties.

Third-party libraries (gray-matter / js-yaml) are not part of the
repository; they are modelled from their documented behaviour where the
source calls them, with scalar string values for YAML mappings.  All
regular-expression operations of the source are embedded as explicit
character scanners with the same left-to-right, non-overlapping global
match semantics as the JavaScript regexp engine.
-/

set_option autoImplicit false
set_option maxRecDepth 8000

namespace SlidevAI

/-! ### JavaScript string primitives on `List Char` -/

/-- JS whitespace class `\s` restricted to ASCII (space, tab, newline,
carriage return, vertical tab, form feed). -/
def isSpaceChar (c : Char) : Bool :=
  c == ' ' || c == '\t' || c == '\n' || c == '\r' ||
  c == Char.ofNat 11 || c == Char.ofNat 12

/-- Regex word character `\w`: ASCII letters, digits and underscore. -/
def isWordChar (c : Char) : Bool :=
  c.isAlphanum || c == '_'

/-- `String.prototype.trimStart`. -/
def jsTrimLeft (s : List Char) : List Char :=
  s.dropWhile isSpaceChar

/-- `String.prototype.trimEnd`. -/
def jsTrimRight (s : List Char) : List Char :=
  (s.reverse.dropWhile isSpaceChar).reverse

/-- `String.prototype.trim`. -/
def jsTrim (s : List Char) : List Char :=
  jsTrimRight (jsTrimLeft s)

/-- First occurrence of `pat` in `s`: returns the part before the match
and the part after it (`indexOf` plus splitting). -/
def findSub (pat : List Char) : List Char → Option (List Char × List Char)
  | [] => if pat.isEmpty then some ([], []) else none
  | c :: rest =>
    if pat.isPrefixOf (c :: rest) then
      some ([], (c :: rest).drop pat.length)
    else
      match findSub pat rest with
      | some (b, a) => some (c :: b, a)
      | none => none

/-- `String.prototype.includes`. -/
def containsSub (pat s : List Char) : Bool :=
  (findSub pat s).isSome

/-- `String.prototype.indexOf`, `none` instead of `-1`. -/
def indexOfSub (pat s : List Char) : Option Nat :=
  (findSub pat s).map (fun p => p.1.length)

/-- `String.prototype.split` with a multi-character separator
(fuel-driven so that the kernel can evaluate it; the wrapper below
supplies enough fuel for any input). -/
def splitOnSeqFuel (pat : List Char) : Nat → List Char → List (List Char)
  | 0, s => [s]
  | fuel + 1, s =>
    match findSub pat s with
    | none => [s]
    | some (before, after) => before :: splitOnSeqFuel pat fuel after

/-- `String.prototype.split` with a multi-character separator. -/
def splitOnSeq (pat s : List Char) : List (List Char) :=
  splitOnSeqFuel pat (s.length + 1) s

/-- `replace(/\r\n/g, '\n')`. -/
def replaceCRLF : List Char → List Char
  | [] => []
  | '\r' :: '\n' :: rest => '\n' :: replaceCRLF rest
  | c :: rest => c :: replaceCRLF rest

/-- Decimal rendering of a `Nat` as a JS template literal would produce. -/
def natStr (n : Nat) : List Char :=
  (Nat.repr n).data

/-- Decimal rendering of an `Int` as a JS template literal would produce. -/
def intStr (i : Int) : List Char :=
  (toString i).data

/-! ### Data model (types.ts) -/

/-- Frontmatter mapping, modelled as an insertion-ordered association
list of scalar string values (gray-matter parses YAML into an object;
the repository only reads/writes scalar entries). -/
abbrev Fm := List (List Char × List Char)

/-- `LayoutIssueType` from types.ts. -/
inductive LayoutIssueType where
  | tooLongText
  | tooManyBullets
  | imageTextCrowded
  | overflowDetected
  | fontTooSmall
  | emptySlide
  | missingTitle
deriving DecidableEq

/-- `IssueSeverity` from types.ts. -/
inductive IssueSeverity where
  | error
  | warning
  | info
deriving DecidableEq

/-- `LayoutIssue.meta` from types.ts. -/
structure IssueMeta where
  charCount : Option Nat
  bulletCount : Option Nat
  imageCount : Option Nat
  overflowPixels : Option Nat
deriving DecidableEq

/-- `LayoutIssue` from types.ts. -/
structure LayoutIssue where
  type : LayoutIssueType
  message : List Char
  severity : IssueSeverity
  slideIndex : Int
  suggestion : Option (List Char)
  meta : Option IssueMeta
deriving DecidableEq

/-- `Slide` from types.ts. -/
structure Slide where
  index : Int
  content : List Char
  frontmatter : Option Fm
  layout : Option (List Char)
  notes : Option (List Char)
deriving DecidableEq

/-- `SlideDeck` from types.ts. -/
structure SlideDeck where
  frontmatter : Fm
  slides : List Slide
  raw : List Char
deriving DecidableEq

/-- `LayoutCheckConfig` from types.ts (all fields optional). -/
structure LayoutCheckConfig where
  maxCharsPerSlide : Option Nat
  maxBulletsPerSlide : Option Nat
  useHeadlessBrowser : Option Bool
  viewportWidth : Option Nat
  viewportHeight : Option Nat
deriving DecidableEq

/-- A `LayoutCheckConfig` with every field absent. -/
def emptyLayoutConfig : LayoutCheckConfig :=
  { maxCharsPerSlide := none, maxBulletsPerSlide := none,
    useHeadlessBrowser := none, viewportWidth := none, viewportHeight := none }

/-- The result of `{ ...DEFAULT_CONFIG, ...config }` in
layoutHeuristic.ts: every field resolved to a value. -/
structure MergedLayoutConfig where
  maxCharsPerSlide : Nat
  maxBulletsPerSlide : Nat
  useHeadlessBrowser : Bool
  viewportWidth : Nat
  viewportHeight : Nat
deriving DecidableEq

/-- `{ ...DEFAULT_CONFIG, ...config }` with the defaults of
layoutHeuristic.ts (600 chars, 6 bullets, no browser, 1920x1080). -/
def mergeConfig (c : LayoutCheckConfig) : MergedLayoutConfig :=
  { maxCharsPerSlide := c.maxCharsPerSlide.getD 600,
    maxBulletsPerSlide := c.maxBulletsPerSlide.getD 6,
    useHeadlessBrowser := c.useHeadlessBrowser.getD false,
    viewportWidth := c.viewportWidth.getD 1920,
    viewportHeight := c.viewportHeight.getD 1080 }

/-! ### Score function (layoutHeuristic.ts, `calculateLayoutScore`) -/

/-- Severity weight subtracted per issue in `calculateLayoutScore`. -/
def severityPenalty : IssueSeverity → Int
  | .error => 25
  | .warning => 10
  | .info => 3

/-- `calculateLayoutScore`: 100 minus the severity penalties, clamped to
be at least 0 at the end of the loop; an empty list short-circuits
to 100. -/
def calculateLayoutScore (issues : List LayoutIssue) : Int :=
  if issues.isEmpty then 100
  else max 0 (issues.foldl (fun s i => s - severityPenalty i.severity) 100)

/-- Number of issues of a given severity. -/
def countSeverity (sev : IssueSeverity) (issues : List LayoutIssue) : Nat :=
  issues.countP (fun i => i.severity == sev)

/-! ### Regex scanners used by the parser and the heuristic checker

Each scanner embeds one concrete regular expression of the source with
the JavaScript engine's leftmost, non-overlapping global-match
behaviour.  The fuel argument only serves termination; the wrapper
always passes `length + 1`, which is never exhausted because every step
consumes at least one character. -/

/-- `replace(/OPEN[\s\S]*?CLOSE/g, '')`: removes every lazily-matched
span from an opening pattern to the next closing pattern (used for
code fences and mermaid blocks). -/
def removeSpansFuel (openPat closePat : List Char) : Nat → List Char → List Char
  | 0, s => s
  | _ + 1, [] => []
  | fuel + 1, c :: rest =>
    if openPat.isPrefixOf (c :: rest) then
      match findSub closePat ((c :: rest).drop openPat.length) with
      | some (_, after) => removeSpansFuel openPat closePat fuel after
      | none => c :: removeSpansFuel openPat closePat fuel rest
    else
      c :: removeSpansFuel openPat closePat fuel rest

/-- `replace(/```[\s\S]*?```/g, '')`. -/
def removeCodeFences (s : List Char) : List Char :=
  removeSpansFuel "```".data "```".data (s.length + 1) s

/-- `replace(/```mermaid[\s\S]*?```/g, '')`. -/
def removeMermaidBlocks (s : List Char) : List Char :=
  removeSpansFuel "```mermaid".data "```".data (s.length + 1) s

/-- Attempt to match `!\[[^\]]*\]\([^)]+\)` at the head of the input;
on success returns `(alt, src, rest after the match)`. -/
def tryImageAt : List Char → Option (List Char × List Char × List Char)
  | '!' :: '[' :: r1 =>
    let alt := r1.takeWhile (fun c => c != ']')
    match r1.drop alt.length with
    | ']' :: '(' :: r2 =>
      let src := r2.takeWhile (fun c => c != ')')
      if src.isEmpty then none
      else
        match r2.drop src.length with
        | ')' :: r3 => some (alt, src, r3)
        | _ => none
    | _ => none
  | _ => none

/-- `replace(/!\[[^\]]*\]\([^)]+\)/g, '')`. -/
def removeImagesFuel : Nat → List Char → List Char
  | 0, s => s
  | _ + 1, [] => []
  | fuel + 1, c :: rest =>
    match tryImageAt (c :: rest) with
    | some (_, _, r3) => removeImagesFuel fuel r3
    | none => c :: removeImagesFuel fuel rest

/-- `replace(/!\[[^\]]*\]\([^)]+\)/g, '')`. -/
def removeImages (s : List Char) : List Char :=
  removeImagesFuel (s.length + 1) s

/-- `extractImages` of slidevParser.ts: all `![alt](src)` matches in
order. -/
def extractImagesFuel : Nat → List Char → List (List Char × List Char)
  | 0, _ => []
  | _ + 1, [] => []
  | fuel + 1, c :: rest =>
    match tryImageAt (c :: rest) with
    | some (alt, src, r3) => (alt, src) :: extractImagesFuel fuel r3
    | none => extractImagesFuel fuel rest

/-- `extractImages` of slidevParser.ts applied to a slide. -/
def extractImages (slide : Slide) : List (List Char × List Char) :=
  extractImagesFuel (slide.content.length + 1) slide.content

/-- `replace(/^---[\s\S]*?---\n?/, '')` (no `m` flag: anchored at the
start of the string, single replacement). -/
def stripLeadingFm (s : List Char) : List Char :=
  if "---".data.isPrefixOf s then
    match findSub "---".data (s.drop 3) with
    | some (_, after) =>
      match after with
      | '\n' :: r => r
      | _ => after
    | none => s
  else s

/-- `replace(/^#+\s*/gm, '')`: the boolean tracks whether the current
position is a line start (string start or preceded by a newline); the
`\s*` of a match may swallow newlines, so the flag after a removal
depends on the last removed character. -/
def removeHeadingsFuel : Nat → Bool → List Char → List Char
  | 0, _, s => s
  | _ + 1, _, [] => []
  | fuel + 1, lineStart, c :: rest =>
    if lineStart && c == '#' then
      let hashes := (c :: rest).takeWhile (fun d => d == '#')
      let afterHashes := (c :: rest).drop hashes.length
      let ws := afterHashes.takeWhile isSpaceChar
      removeHeadingsFuel fuel (ws.getLast? == some '\n') (afterHashes.drop ws.length)
    else
      c :: removeHeadingsFuel fuel (c == '\n') rest

/-- `replace(/^#+\s*/gm, '')`. -/
def removeHeadings (s : List Char) : List Char :=
  removeHeadingsFuel (s.length + 1) true s

/-- `replace(/[*_`~]/g, '')`. -/
def removeFormatChars (s : List Char) : List Char :=
  s.filter (fun c => !("*_`~".data.contains c))

/-- One line-start attempt of `/^#{1,3}\s+.+/m`: a run of one to three
hashes, at least one whitespace character, then (after backtracking of
the greedy `\s+`) some character that is not a newline.  Since `.`
also matches blanks, the match succeeds as soon as some non-newline
character follows the first whitespace with only newlines between. -/
def headingTailMatch : List Char → Bool
  | [] => false
  | c :: rest =>
    if c == '\n' then headingTailMatch rest else true

/-- Does `/^#{1,3}\s+.+/` match at this (line-start) position? -/
def headingMatchAt (s : List Char) : Bool :=
  let hashes := s.takeWhile (fun d => d == '#')
  let t := s.drop hashes.length
  decide (1 ≤ hashes.length) && decide (hashes.length ≤ 3) &&
    (match t with
     | d :: ds => isSpaceChar d && headingTailMatch ds
     | [] => false)

/-- `/^#{1,3}\s+.+/m.test(content)` of `checkMissingTitle`. -/
def hasHeadingFuel : Nat → Bool → List Char → Bool
  | 0, _, _ => false
  | _ + 1, _, [] => false
  | fuel + 1, lineStart, c :: rest =>
    if lineStart && headingMatchAt (c :: rest) then true
    else hasHeadingFuel fuel (c == '\n') rest

/-- `/^#{1,3}\s+.+/m.test(content)`. -/
def hasHeading (s : List Char) : Bool :=
  hasHeadingFuel (s.length + 1) true s

/-- Bullet marker characters of `/^[\s]*[-*+]|\d+\./gm`. -/
def isBulletChar (c : Char) : Bool :=
  c == '-' || c == '*' || c == '+'

/-- First alternative `^[\s]*[-*+]` at a line-start position: after the
greedy (backtracking) `[\s]*`, the first non-whitespace character must
be a bullet marker. -/
def bulletAltAt (s : List Char) : Bool :=
  match s.dropWhile isSpaceChar with
  | b :: _ => isBulletChar b
  | [] => false

/-- Second alternative `\d+\.` anywhere: a maximal digit run followed by
a period. -/
def numberedAltAt : List Char → Bool
  | c :: rest =>
    c.isDigit &&
      (match (c :: rest).dropWhile Char.isDigit with
       | '.' :: _ => true
       | _ => false)
  | [] => false

/-- `content.match(/^[\s]*[-*+]|\d+\./gm)` match count: the source's
bullet counter counts regex matches, not lines.  The first alternative
is anchored to line starts and consumes the whitespace run plus the
marker; the second fires anywhere a digit run is followed by a period
and consumes the run plus the period. -/
def countBulletsFuel : Nat → Bool → List Char → Nat
  | 0, _, _ => 0
  | _ + 1, _, [] => 0
  | fuel + 1, lineStart, c :: rest =>
    if lineStart && bulletAltAt (c :: rest) then
      let k := ((c :: rest).takeWhile isSpaceChar).length
      countBulletsFuel fuel false ((c :: rest).drop (k + 1)) + 1
    else if numberedAltAt (c :: rest) then
      let k := ((c :: rest).takeWhile Char.isDigit).length
      countBulletsFuel fuel false ((c :: rest).drop (k + 1)) + 1
    else
      countBulletsFuel fuel (c == '\n') rest

/-- Number of matches of `/^[\s]*[-*+]|\d+\./gm` in a slide's content. -/
def countBullets (s : List Char) : Nat :=
  countBulletsFuel (s.length + 1) true s

/-- All matches of `/```(\w*)\n([\s\S]*?)```/g`: opening fence, optional
word-character language tag, a mandatory newline, lazily up to the
closing fence.  Returns `(language or "text", trimmed code)` as
`extractCodeBlocks` of slidevParser.ts does. -/
def extractCodeBlocksFuel : Nat → List Char → List (List Char × List Char)
  | 0, _ => []
  | _ + 1, [] => []
  | fuel + 1, c :: rest =>
    if "```".data.isPrefixOf (c :: rest) then
      let after3 := (c :: rest).drop 3
      let lang := after3.takeWhile isWordChar
      match after3.drop lang.length with
      | '\n' :: body =>
        match findSub "```".data body with
        | some (code, afterClose) =>
          ((if lang.isEmpty then "text".data else lang), jsTrim code) ::
            extractCodeBlocksFuel fuel afterClose
        | none => extractCodeBlocksFuel fuel rest
      | _ => extractCodeBlocksFuel fuel rest
    else
      extractCodeBlocksFuel fuel rest

/-- `extractCodeBlocks` of slidevParser.ts applied to a slide. -/
def extractCodeBlocks (slide : Slide) : List (List Char × List Char) :=
  extractCodeBlocksFuel (slide.content.length + 1) slide.content

/-- `/```mermaid/i.test(slide.content)`: case-insensitive substring
test. -/
def hasMermaidDiagram (slide : Slide) : Bool :=
  containsSub "```mermaid".data (slide.content.map Char.toLower)

/-! ### Issue detector (layoutHeuristic.ts) -/

/-- `checkEmptySlide`: strip the leading frontmatter block, trim, strip
code fences, images, headings and inline formatting; warn when fewer
than 10 characters remain. -/
def emptySlideText (content : List Char) : List Char :=
  jsTrim (removeFormatChars (removeHeadings (removeImages
    (removeCodeFences (jsTrim (stripLeadingFm content))))))

/-- `checkEmptySlide` of layoutHeuristic.ts. -/
def checkEmptySlide (slide : Slide) : Option LayoutIssue :=
  if (emptySlideText slide.content).length < 10 then
    some
      { type := .emptySlide,
        message := "Slide appears to be empty or has minimal content".data,
        severity := .warning,
        slideIndex := slide.index,
        suggestion := some "Add meaningful content or consider removing this slide".data,
        meta := some
          { charCount := some (emptySlideText slide.content).length,
            bulletCount := none, imageCount := none, overflowPixels := none } }
  else none

/-- Layout tags exempt from the missing-title check. -/
def noTitleLayouts : List (List Char) :=
  ["cover".data, "intro".data, "center".data, "quote".data, "image".data, "end".data]

/-- `slide.layout && noTitleLayouts.includes(slide.layout)`: an empty
layout string is falsy in JS. -/
def layoutExempt (slide : Slide) : Bool :=
  match slide.layout with
  | some l => !l.isEmpty && noTitleLayouts.contains l
  | none => false

/-- `checkMissingTitle` of layoutHeuristic.ts. -/
def checkMissingTitle (slide : Slide) : Option LayoutIssue :=
  if layoutExempt slide then none
  else if hasHeading slide.content then none
  else
    some
      { type := .missingTitle,
        message := "Slide is missing a title or heading".data,
        severity := .info,
        slideIndex := slide.index,
        suggestion := some "Add a heading to improve slide structure".data,
        meta := none }

/-- Text considered by `checkTextLength`: code fences, images, then the
leading frontmatter block removed, then trimmed (in exactly this
order). -/
def textLengthText (content : List Char) : List Char :=
  jsTrim (stripLeadingFm (removeImages (removeCodeFences content)))

/-- `line.replace(/^[-*+]\s*/, '').trim()` of the per-line length
check. -/
def cleanLine (line : List Char) : List Char :=
  match line with
  | c :: rest =>
    if isBulletChar c then jsTrim (rest.dropWhile isSpaceChar)
    else jsTrim line
  | [] => []

/-- `checkTextLength` of layoutHeuristic.ts: a whole-slide issue when
the stripped text exceeds the threshold (error beyond 1.5x) and one
aggregate info issue when at least one cleaned line exceeds 100
characters. -/
def checkTextLength (slide : Slide) (config : MergedLayoutConfig) : List LayoutIssue :=
  (if (textLengthText slide.content).length > config.maxCharsPerSlide then
    [{ type := .tooLongText,
       message := "Slide has ".data ++ natStr (textLengthText slide.content).length ++
         " characters (max recommended: ".data ++ natStr config.maxCharsPerSlide ++ ")".data,
       severity :=
         if 2 * (textLengthText slide.content).length > 3 * config.maxCharsPerSlide then
           .error
         else .warning,
       slideIndex := slide.index,
       suggestion := some "Shorten text, use bullet points, or split into multiple slides".data,
       meta := some
         { charCount := some (textLengthText slide.content).length,
           bulletCount := none, imageCount := none, overflowPixels := none } }]
  else []) ++
  (if ((textLengthText slide.content).splitOn '\n').countP
      (fun line => (cleanLine line).length > 100) > 0 then
    [{ type := .tooLongText,
       message := natStr (((textLengthText slide.content).splitOn '\n').countP
           (fun line => (cleanLine line).length > 100)) ++
         " line(s) exceed recommended length (100 chars)".data,
       severity := .info,
       slideIndex := slide.index,
       suggestion := some "Break long lines into shorter phrases or bullet points".data,
       meta := none }]
  else [])

/-- `checkBulletCount` of layoutHeuristic.ts: counts the matches of
`/^[\s]*[-*+]|\d+\./gm` and reports when the count exceeds the
configured maximum, escalating to an error beyond 1.5x the maximum. -/
def checkBulletCount (slide : Slide) (config : MergedLayoutConfig) : Option LayoutIssue :=
  if countBullets slide.content > config.maxBulletsPerSlide then
    some
      { type := .tooManyBullets,
        message := "Slide has ".data ++ natStr (countBullets slide.content) ++
          " bullet points (max recommended: ".data ++ natStr config.maxBulletsPerSlide ++ ")".data,
        severity :=
          if 2 * countBullets slide.content > 3 * config.maxBulletsPerSlide then .error
          else .warning,
        slideIndex := slide.index,
        suggestion := some "Consolidate bullet points or split into multiple slides".data,
        meta := some
          { charCount := none, bulletCount := some (countBullets slide.content),
            imageCount := none, overflowPixels := none } }
  else none

/-- Text considered by `checkImageTextCrowding`: images, mermaid blocks,
then the leading frontmatter block removed, then trimmed. -/
def crowdingText (content : List Char) : List Char :=
  jsTrim (stripLeadingFm (removeMermaidBlocks (removeImages content)))

/-- Normalization loop for binary64 rounding: brings the positive
rational `num / den` (times the tracked power of two) into the
significand window `[2^52, 2^53)` by exact doubling of numerator or
denominator.  The fuel passed by `roundPosRat` covers the bit lengths
of both operands, so it is never exhausted. -/
def scaleLoop : Nat → Nat → Nat → Int → Nat × Nat × Int
  | 0, num, den, e => (num, den, e)
  | fuel + 1, num, den, e =>
    if num ≥ den * 2 ^ 53 then scaleLoop fuel num (den * 2) (e + 1)
    else if num < den * 2 ^ 52 then scaleLoop fuel (num * 2) den (e - 1)
    else (num, den, e)

/-- Round the positive rational `num / den` to the nearest IEEE-754
binary64 value (round-to-nearest, ties-to-even), returned as a
significand-exponent pair `(m, e)` denoting `m * 2^e` with
`2^52 ≤ m < 2^53` (zero maps to `(0, 0)`; the inputs of this
development stay far from overflow and subnormals). -/
def roundPosRat (num den : Nat) : Nat × Int :=
  if num = 0 then (0, 0)
  else
    match scaleLoop (num.log2 + den.log2 + 130) num den 0 with
    | (n2, d2, e) =>
      let q := n2 / d2
      let r := n2 % d2
      let m :=
        if 2 * r < d2 then q
        else if 2 * r > d2 then q + 1
        else if q % 2 = 0 then q else q + 1
      if m = 2 ^ 53 then (2 ^ 52, e + 1) else (m, e)

/-- The binary64 value of the literal `0.6`
(`0.59999999999999997779…`, significand `5404319552844595`,
exponent `-53`). -/
def DOUBLE_0_6 : Nat × Int := (5404319552844595, -53)

/-- Binary64 division of a double by an exactly-representable natural
number (`0.6 / imageCount`): one correctly-rounded operation. -/
def fpDivNat (x : Nat × Int) (n : Nat) : Nat × Int :=
  match roundPosRat x.1 n with
  | (m, e) => (m, e + x.2)

/-- Binary64 multiplication of a double by an exactly-representable
natural number (`maxChars * q`): one correctly-rounded operation. -/
def fpMulNat (x : Nat × Int) (c : Nat) : Nat × Int :=
  match roundPosRat (x.1 * c) 1 with
  | (m, e) => (m, e + x.2)

/-- `Math.floor` of a non-negative binary64 value given as a
significand-exponent pair. -/
def fpFloor (x : Nat × Int) : Nat :=
  match x.2 with
  | Int.ofNat k => x.1 * 2 ^ k
  | Int.negSucc k => x.1 / 2 ^ (k + 1)

/-- `Math.floor(config.maxCharsPerSlide * (0.6 / imageCount))`,
evaluated exactly as IEEE-754 binary64 arithmetic does: the double
nearest `0.6`, one rounded division by `imageCount`, one rounded
multiplication by `maxChars`, then the floor.  The double rounding is
observable: at the default 600 characters the JS program computes 119
for three images and 59 for six, where the exact rational floor would
give 120 and 60. -/
def adjustedMaxChars (maxChars imageCount : Nat) : Nat :=
  fpFloor (fpMulNat (fpDivNat DOUBLE_0_6 imageCount) maxChars)

/-- `images.length + (hasDiagram ? 1 : 0)` of `checkImageTextCrowding`. -/
def crowdImageCount (slide : Slide) : Nat :=
  (extractImages slide).length + (if hasMermaidDiagram slide then 1 else 0)

/-- `checkImageTextCrowding` of layoutHeuristic.ts. -/
def checkImageTextCrowding (slide : Slide) (config : MergedLayoutConfig) : Option LayoutIssue :=
  if (extractImages slide).isEmpty && !hasMermaidDiagram slide then none
  else if (crowdingText slide.content).length >
      adjustedMaxChars config.maxCharsPerSlide (crowdImageCount slide) then
    some
      { type := .imageTextCrowded,
        message := "Slide with ".data ++ natStr (crowdImageCount slide) ++
          " image(s)/diagram(s) has ".data ++ natStr (crowdingText slide.content).length ++
          " chars (recommended: ".data ++
          natStr (adjustedMaxChars config.maxCharsPerSlide (crowdImageCount slide)) ++ ")".data,
        severity := .warning,
        slideIndex := slide.index,
        suggestion := some "Reduce text content when including images or diagrams".data,
        meta := some
          { charCount := some (crowdingText slide.content).length, bulletCount := none,
            imageCount := some (crowdImageCount slide), overflowPixels := none } }
  else none

/-- `block.code.split('\n').length` of `checkCodeBlocks`. -/
def codeLineCount (code : List Char) : Nat :=
  (code.splitOn '\n').length

/-- `checkCodeBlocks` of layoutHeuristic.ts: a `too-long-text` issue per
fenced block beyond 20 lines, error beyond 30 lines. -/
def checkCodeBlocks (slide : Slide) : List LayoutIssue :=
  (extractCodeBlocks slide).flatMap fun block =>
    if codeLineCount block.2 > 20 then
      [{ type := .tooLongText,
         message := "Code block has ".data ++ natStr (codeLineCount block.2) ++
           " lines (max recommended: 20)".data,
         severity := if codeLineCount block.2 > 30 then .error else .warning,
         slideIndex := slide.index,
         suggestion := some "Shorten code block, highlight key parts, or split across slides".data,
         meta := none }]
    else []

/-- Turns the `if (x) issues.push(x)` pattern into a list. -/
def optList {α : Type} : Option α → List α
  | some a => [a]
  | none => []

/-- `checkSlideLayout` of layoutHeuristic.ts: the six checks run in a
fixed order and their results are concatenated. -/
def checkSlideLayout (slide : Slide) (config : LayoutCheckConfig) : List LayoutIssue :=
  let merged := mergeConfig config
  optList (checkEmptySlide slide) ++
  optList (checkMissingTitle slide) ++
  checkTextLength slide merged ++
  optList (checkBulletCount slide merged) ++
  optList (checkImageTextCrowding slide merged) ++
  checkCodeBlocks slide

/-- `checkDeckLayout` of layoutHeuristic.ts. -/
def checkDeckLayout (slides : List Slide) (config : LayoutCheckConfig) : List LayoutIssue :=
  slides.flatMap (fun slide => checkSlideLayout slide config)

/-! ### gray-matter / js-yaml model

The repository delegates frontmatter parsing to the third-party
gray-matter package (backed by js-yaml).  Both are modelled from their
documented behaviour: a frontmatter block is opened by `---` plus a
newline at the very start and closed by the first newline-`---`
sequence; the YAML body is a mapping of scalar `key: value` lines; an
unterminated flow sequence (a line starting with `[` with no closing
`]` anywhere) makes the YAML engine throw, which gray-matter
propagates to its caller. -/

/-- js-yaml (modelled): parse the frontmatter body into scalar entries;
throw on an unterminated flow sequence. -/
def yamlParse (s : List Char) : Except (List Char) Fm :=
  if (s.splitOn '\n').any
      (fun line => "[".data.isPrefixOf (jsTrim line) && !s.contains ']') then
    Except.error "unexpected end of the stream within a flow collection".data
  else
    Except.ok <|
      (s.splitOn '\n').filterMap fun line =>
        let t := jsTrim line
        if t.isEmpty then none
        else
          match findSub ": ".data t with
          | some (key, value) => some (jsTrim key, jsTrim value)
          | none => none

/-- gray-matter (modelled): returns `(data, content)`, where the
content drops one newline after the closing delimiter; without an
opening delimiter the whole input is content; without a closing
delimiter the whole remainder is treated as the frontmatter block. -/
def matter (s : List Char) : Except (List Char) (Fm × List Char) :=
  if "---\n".data.isPrefixOf s then
    match findSub "\n---".data (s.drop 4) with
    | some (fmRaw, rest) =>
      (yamlParse fmRaw).map fun data =>
        (data, match rest with
               | '\n' :: r => r
               | _ => rest)
    | none => (yamlParse (s.drop 4)).map fun data => (data, [])
  else
    Except.ok ([], s)

/-! ### Parser / serializer (slidevParser.ts) -/

/-- `SLIDE_FRONTMATTER_REGEX = /^---\n([\s\S]*?)\n---\n?/` evaluated on
a slide segment: returns the captured YAML body and the remainder
after the whole match (the optional trailing newline consumed). -/
def slideFrontmatterMatch (content : List Char) : Option (List Char × List Char) :=
  if "---\n".data.isPrefixOf content then
    match findSub "\n---".data (content.drop 4) with
    | some (inner, rest) =>
      some (inner, match rest with
                   | '\n' :: r => r
                   | _ => rest)
    | none => none
  else none

/-- Notes marker prefix of `/<!--\s*notes?\s*-->\s*([\s\S]*?)(?:<!--|$)/i`
tried at one position: on success returns the input after `-->`. -/
def tryNotesMarkerAt (s : List Char) : Option (List Char) :=
  if "<!--".data.isPrefixOf s then
    match (s.drop 4).dropWhile isSpaceChar with
    | c1 :: c2 :: c3 :: c4 :: r =>
      if c1.toLower == 'n' && c2.toLower == 'o' && c3.toLower == 't' && c4.toLower == 'e' then
        let r2 :=
          match r with
          | c5 :: r5 => if c5.toLower == 's' then r5 else r
          | [] => r
        let r3 := r2.dropWhile isSpaceChar
        if "-->".data.isPrefixOf r3 then some (r3.drop 3) else none
      else none
    | _ => none
  else none

/-- `content.match(/<!--\s*notes?\s*-->\s*([\s\S]*?)(?:<!--|$)/i)`:
first position where the marker matches; the capture runs from after
the greedy whitespace up to the next comment opener or the end, and is
trimmed.  Returns `none` when no marker occurs. -/
def extractNotesFuel : Nat → List Char → Option (List Char)
  | 0, _ => none
  | _ + 1, [] => none
  | fuel + 1, c :: rest =>
    match tryNotesMarkerAt (c :: rest) with
    | some afterMarker =>
      let body := afterMarker.dropWhile isSpaceChar
      some (jsTrim (match findSub "<!--".data body with
                    | some (before, _) => before
                    | none => body))
    | none => extractNotesFuel fuel rest

/-- Speaker-notes extraction of `parseSlide`. -/
def extractNotes (content : List Char) : Option (List Char) :=
  extractNotesFuel (content.length + 1) content

/-- `data.layout` lookup with JS truthiness (an empty string does not
set the layout tag). -/
def layoutOf (data : Fm) : Option (List Char) :=
  match data.lookup "layout".data with
  | some v => if v.isEmpty then none else some v
  | none => none

/-- `parseSlide` of slidevParser.ts: strip a well-formed slide-level
frontmatter block (malformed YAML is caught and the body kept as-is);
extract speaker notes from the original segment.  The notes marker is
not removed from `content`. -/
def parseSlide (content : List Char) (index : Int) : Slide :=
  match slideFrontmatterMatch content with
  | some (inner, rest) =>
    match matter ("---\n".data ++ inner ++ "\n---".data) with
    | Except.ok (data, _) =>
      { index := index, content := jsTrim rest, frontmatter := some data,
        layout := layoutOf data, notes := extractNotes content }
    | Except.error _ =>
      { index := index, content := content, frontmatter := none,
        layout := none, notes := extractNotes content }
  | none =>
    { index := index, content := content, frontmatter := none,
      layout := none, notes := extractNotes content }

/-- `splitIntoSlides` of slidevParser.ts: trim, split on `\n---\n`,
trim the parts and drop empty ones. -/
def splitIntoSlides (content : List Char) : List (List Char) :=
  if (jsTrim content).isEmpty then []
  else ((splitOnSeq "\n---\n".data (jsTrim content)).map jsTrim).filter
    (fun part => !part.isEmpty)

/-- Indexed map used for `slideContents.map(parseSlide)`. -/
def parseSlidesFrom (i : Int) : List (List Char) → List Slide
  | [] => []
  | c :: rest => parseSlide c i :: parseSlidesFrom (i + 1) rest

/-- Line-ending normalization plus trim at the top of `parseSlidev`. -/
def normalizeInput (s : List Char) : List Char :=
  jsTrim (replaceCRLF s)

/-- `parseSlidev` of slidevParser.ts.  The global `matter` call is not
guarded, so a YAML error from the global frontmatter propagates (the
`Except.error` case models the thrown exception). -/
def parseSlidev (content : List Char) : Except (List Char) SlideDeck :=
  match matter (normalizeInput content) with
  | Except.error e => Except.error e
  | Except.ok (frontmatter, bodyContent) =>
    Except.ok
      { frontmatter := frontmatter,
        slides := parseSlidesFrom 0 (splitIntoSlides bodyContent),
        raw := normalizeInput content }

/-- `formatYamlValue` of slidevParser.ts restricted to the scalar string
values of the model: quote (escaping quotes) when the value contains a
colon, a hash or a newline. -/
def formatYamlValue (value : List Char) : List Char :=
  if value.contains ':' || value.contains '#' || value.contains '\n' then
    '"' :: (value.flatMap fun c => if c == '"' then ['\\', '"'] else [c]) ++ ['"']
  else value

/-- Join a list of strings with a separator (`Array.prototype.join`). -/
def joinWith (sep : List Char) : List (List Char) → List Char
  | [] => []
  | [p] => p
  | p :: rest => p ++ sep ++ joinWith sep rest

/-- `stringifyFrontmatter` of slidevParser.ts (scalar entries). -/
def stringifyFrontmatter (frontmatter : Fm) : List Char :=
  "---\n".data ++
    joinWith "\n".data
      (frontmatter.map fun e => e.1 ++ ": ".data ++ formatYamlValue e.2) ++
    "\n---".data

/-- `stringifySlide` of slidevParser.ts: optional frontmatter block,
content, optional notes block (a JS-falsy empty notes string is
skipped), joined by single newlines. -/
def stringifySlide (slide : Slide) : List Char :=
  joinWith "\n".data <|
    (match slide.frontmatter with
     | some fm =>
       if fm.isEmpty then []
       else ["---\n".data ++
         joinWith "\n".data (fm.map fun e => e.1 ++ ": ".data ++ formatYamlValue e.2) ++
         "\n---".data]
     | none => []) ++
    [slide.content] ++
    (match slide.notes with
     | some n => if n.isEmpty then [] else ["\n<!-- notes -->\n".data ++ n]
     | none => [])

/-- `stringifySlidev` of slidevParser.ts: the global frontmatter block
when non-empty, then each slide; a bare `---` part is pushed before a
slide whenever it is not the very first part, and all parts are joined
by blank lines. -/
def stringifySlidev (deck : SlideDeck) : List Char :=
  let fmParts :=
    if deck.frontmatter.isEmpty then [] else [stringifyFrontmatter deck.frontmatter]
  let rec slideParts (first : Bool) : List Slide → List (List Char)
    | [] => []
    | s :: rest =>
      (if first then [stringifySlide s] else ["---".data, stringifySlide s]) ++
        slideParts false rest
  joinWith "\n\n".data (fmParts ++ slideParts fmParts.isEmpty deck.slides)

/-- `getSlide` of slidevParser.ts (JS array indexing: out-of-range and
negative indices give `undefined`). -/
def getSlide (deck : SlideDeck) (index : Int) : Option Slide :=
  if index < 0 then none else deck.slides[index.toNat]?

/-- In-place update of the element at a position (the
`newSlides[index] = { ...newSlides[index], content }` assignment). -/
def updAt (slides : List Slide) (n : Nat) (content : List Char) : List Slide :=
  match slides, n with
  | [], _ => []
  | s :: rest, 0 => { s with content := content } :: rest
  | s :: rest, n + 1 => s :: updAt rest n content

/-- `updateSlide` of slidevParser.ts: the only index-validated deck
operation; throws `Invalid slide index` outside `[0, length)` and does
not re-derive the `index` fields. -/
def updateSlide (deck : SlideDeck) (index : Int) (content : List Char) :
    Except (List Char) SlideDeck :=
  if index < 0 ∨ index ≥ (deck.slides.length : Int) then
    Except.error ("Invalid slide index: ".data ++ intStr index)
  else
    Except.ok { deck with slides := updAt deck.slides index.toNat content }

/-- `Partial<Slide>` argument of `insertSlide`. -/
structure SlideInit where
  content : Option (List Char)
  frontmatter : Option Fm
  layout : Option (List Char)
  notes : Option (List Char)
deriving DecidableEq

/-- Re-derivation of contiguous indices:
`newSlides.map((s, i) => ({ ...s, index: i }))`. -/
def reindexFrom (i : Int) : List Slide → List Slide
  | [] => []
  | s :: rest => { s with index := i } :: reindexFrom (i + 1) rest

/-- `Array.prototype.splice(start, 0, item)` position clamping. -/
def splicePos (index : Int) (len : Nat) : Nat :=
  if index < 0 then (max ((len : Int) + index) 0).toNat
  else min index.toNat len

/-- `List.insertIdx`-style insertion at a (clamped) position. -/
def insertAt (pos : Nat) (s : Slide) (slides : List Slide) : List Slide :=
  match slides, pos with
  | rest, 0 => s :: rest
  | [], _ + 1 => [s]
  | t :: rest, p + 1 => t :: insertAt p s rest

/-- `insertSlide` of slidevParser.ts: no index validation at all —
`splice` clamps the position (negative counts from the end,
beyond-the-end appends); all indices are re-derived afterwards. -/
def insertSlide (deck : SlideDeck) (index : Int) (slide : SlideInit) : SlideDeck :=
  let newSlide : Slide :=
    { index := index, content := slide.content.getD [],
      frontmatter := slide.frontmatter, layout := slide.layout, notes := slide.notes }
  { deck with
      slides := reindexFrom 0
        (insertAt (splicePos index deck.slides.length) newSlide deck.slides) }

/-- `slides.filter((_, i) => i !== index)`. -/
def removeAtPos (index : Int) : Int → List Slide → List Slide
  | _, [] => []
  | k, s :: rest =>
    if k == index then removeAtPos index (k + 1) rest
    else s :: removeAtPos index (k + 1) rest

/-- `removeSlide` of slidevParser.ts: no index validation — an
out-of-range index simply removes nothing; indices are re-derived. -/
def removeSlide (deck : SlideDeck) (index : Int) : SlideDeck :=
  { deck with slides := reindexFrom 0 (removeAtPos index 0 deck.slides) }

/-! ### Cleanup transform (llm.ts, `cleanMarkdownOutput`) -/

/-- Drop the last `n` characters (`slice(0, -n)`, empty when the string
is shorter than `n`). -/
def dropLastN (n : Nat) (s : List Char) : List Char :=
  s.take (s.length - n)

/-- Fence-stripping stage of `cleanMarkdownOutput`. -/
def cleanFenceStage (cleaned : List Char) : List Char :=
  if "```markdown".data.isPrefixOf cleaned || "```md".data.isPrefixOf cleaned then
    let c1 :=
      if "```markdown\n".data.isPrefixOf cleaned then cleaned.drop 12
      else if "```md\n".data.isPrefixOf cleaned then cleaned.drop 6
      else cleaned
    if "\n```".data.isSuffixOf c1 then dropLastN 4 c1 else c1
  else if "```slidev".data.isPrefixOf cleaned then
    let c1 := if "```slidev\n".data.isPrefixOf cleaned then cleaned.drop 10 else cleaned
    if "\n```".data.isSuffixOf c1 then dropLastN 4 c1 else c1
  else if "```".data.isPrefixOf cleaned && "```".data.isSuffixOf cleaned then
    let inner := jsTrim (dropLastN 3 (cleaned.drop 3))
    match findSub "\n".data inner with
    | some (firstLine, afterNl) =>
      if !firstLine.contains ' ' && !firstLine.contains '-' then afterNl else inner
    | none => inner
  else cleaned

/-- Explanation-prefix stage of `cleanMarkdownOutput`: when text
precedes the first `---` and that text (trimmed) is a single line
shorter than 100 characters, drop it. -/
def cleanPrefixStage (cleaned : List Char) : List Char :=
  match indexOfSub "---".data cleaned with
  | some start =>
    if start > 0 then
      if !(jsTrim (cleaned.take start)).contains '\n' &&
          decide ((jsTrim (cleaned.take start)).length < 100) then
        cleaned.drop start
      else cleaned
    else cleaned
  | none => cleaned

/-- `cleanMarkdownOutput` of llm.ts. -/
def cleanMarkdownOutput (text : List Char) : List Char :=
  jsTrim (cleanPrefixStage (cleanFenceStage (jsTrim text)))

/-! ### Edit orchestrator (orchestrator.ts, `editSlideWithFeedback`) -/

/-- `DEFAULT_MAX_FIX_ITERATIONS` of orchestrator.ts. -/
def DEFAULT_MAX_FIX_ITERATIONS : Nat := 3

/-- `EnhanceOptions` from types.ts. -/
structure EnhanceOptions where
  instruction : List Char
  autoFix : Option Bool
  maxIterations : Option Nat
deriving DecidableEq

/-- `EditSlideResult` from types.ts. -/
structure EditSlideResult where
  success : Bool
  content : List Char
  layoutIssues : List LayoutIssue
  iterations : Nat
  error : Option (List Char)
deriving DecidableEq

/-- The external generation capability (llm.ts `editSlide` and
`fixLayoutIssues`), modelled as deterministic total functions of the
arguments the orchestrator passes; the success path of the loop is the
subject of the claims. -/
structure Collaborator where
  editSlide : List Char → List Char → List LayoutIssue → List Char
  fixLayoutIssues : List Char → List LayoutIssue → List Char

/-- Mutable loop state of `editSlideWithFeedback`, extended with the
running number of collaborator calls made. -/
structure LoopState where
  content : List Char
  issues : List LayoutIssue
  iterations : Nat
  calls : Nat
deriving DecidableEq

/-- The `while (autoFix && layoutIssues.length > 0 && iterations <
maxIterations)` loop of `editSlideWithFeedback`: one `fixLayoutIssues`
collaborator call per pass, then a re-check, with an early break once
the score reaches 80.  The fuel equals `maxIterations` at the entry
call; since `iterations` starts at 1 and grows with every recursion
while the guard requires `iterations < maxIterations`, the fuel never
runs out before the guard fails. -/
def fixLoop (collab : Collaborator) (layoutConfig : LayoutCheckConfig)
    (baseSlide : Slide) (autoFix : Bool) (maxIterations : Nat) :
    Nat → LoopState → LoopState
  | 0, st => st
  | fuel + 1, st =>
    if autoFix ∧ st.issues ≠ [] ∧ st.iterations < maxIterations then
      let newContent := collab.fixLayoutIssues st.content st.issues
      let newIssues :=
        checkSlideLayout { baseSlide with content := newContent } layoutConfig
      let st2 : LoopState :=
        { content := newContent, issues := newIssues,
          iterations := st.iterations + 1, calls := st.calls + 1 }
      if calculateLayoutScore newIssues ≥ 80 then st2
      else fixLoop collab layoutConfig baseSlide autoFix maxIterations fuel st2
    else st

/-- `editSlideWithFeedback` of orchestrator.ts on the success path,
returning the `EditSlideResult` together with the number of
collaborator calls performed (initial `editSlide` plus
`fixLayoutIssues` calls). -/
def editSlideWithFeedback (collab : Collaborator) (layoutConfig : LayoutCheckConfig)
    (deck : SlideDeck) (slideIndex : Int) (options : EnhanceOptions) :
    EditSlideResult × Nat :=
  let maxIterations := options.maxIterations.getD DEFAULT_MAX_FIX_ITERATIONS
  let autoFix := options.autoFix.getD true
  match getSlide deck slideIndex with
  | none =>
    ({ success := false, content := [], layoutIssues := [], iterations := 0,
       error := some ("Slide ".data ++ intStr slideIndex ++ " not found".data) }, 0)
  | some currentSlide =>
    let newContent := collab.editSlide currentSlide.content options.instruction []
    let issues :=
      checkSlideLayout { currentSlide with content := newContent } layoutConfig
    let final :=
      fixLoop collab layoutConfig currentSlide autoFix maxIterations maxIterations
        { content := newContent, issues := issues, iterations := 1, calls := 1 }
    ({ success := true, content := final.content, layoutIssues := final.issues,
       iterations := final.iterations, error := none }, final.calls)

/-! ### Whitespace normalization and spec-side counting

These two definitions follow the specification's words, not the source:
they give the spec's notion of "equal up to whitespace normalization"
and its notion of "lines matching bullet markers or numbered-list
markers", for comparison with the embedded source functions. -/

/-- Spec-words definition: the maximal non-whitespace runs of a string;
two strings are equal up to whitespace normalization iff their token
lists agree. -/
def wsTokens : List Char → List Char → List (List Char)
  | acc, [] => if acc.isEmpty then [] else [acc.reverse]
  | acc, c :: rest =>
    if isSpaceChar c then
      if acc.isEmpty then wsTokens [] rest else acc.reverse :: wsTokens [] rest
    else wsTokens (c :: acc) rest

/-- Spec-words definition for the bullet check: the number of lines
that (after leading whitespace) start with a bullet marker `-`, `*`,
`+` or a numbered-list marker (digits followed by a period). -/
def bulletLinesSpec (content : List Char) : Nat :=
  (content.splitOn '\n').countP fun line =>
    match jsTrimLeft line with
    | c :: rest =>
      isBulletChar c ||
        (c.isDigit &&
          (match (c :: rest).dropWhile Char.isDigit with
           | '.' :: _ => true
           | _ => false))
    | [] => false

/-- Contiguity of the `index` fields: slide `k` of the list carries
index `base + k`. -/
def idxOkB : Int → List Slide → Bool
  | _, [] => true
  | k, s :: rest => (s.index == k) && idxOkB (k + 1) rest

/-! ### Helper lemmas -/

theorem foldl_penalty (l : List LayoutIssue) : ∀ a : Int,
    l.foldl (fun s i => s - severityPenalty i.severity) a =
      a - (25 * (countSeverity .error l : Int) + 10 * (countSeverity .warning l : Int) +
        3 * (countSeverity .info l : Int)) := by
  induction l with
  | nil => intro a; simp [countSeverity]
  | cons i l ih =>
    intro a
    simp only [List.foldl_cons, ih, countSeverity, List.countP_cons]
    cases hsev : i.severity <;>
      simp [countSeverity, hsev, severityPenalty] <;> omega

theorem score_eq (issues : List LayoutIssue) :
    calculateLayoutScore issues =
      max 0 (100 - (25 * (countSeverity .error issues : Int) +
        10 * (countSeverity .warning issues : Int) +
        3 * (countSeverity .info issues : Int))) := by
  unfold calculateLayoutScore
  split
  · next h =>
    rw [List.isEmpty_iff] at h
    subst h
    simp [countSeverity]
  · rw [foldl_penalty]

/-- Claim C4: `calculateLayoutScore` starts at 100, subtracts 25 per
error, 10 per warning and 3 per info, clamps at 0, always lands in
[0, 100], yields 100 on the empty list, 75 on a single error issue,
and never increases when an issue is appended. -/
theorem c4_score_function (issues : List LayoutIssue) :
    calculateLayoutScore issues =
      max 0 (100 - (25 * (countSeverity .error issues : Int) +
        10 * (countSeverity .warning issues : Int) +
        3 * (countSeverity .info issues : Int)))
    ∧ 0 ≤ calculateLayoutScore issues
    ∧ calculateLayoutScore issues ≤ 100
    ∧ calculateLayoutScore [] = 100
    ∧ (∀ t msg si sug mt,
        calculateLayoutScore [⟨t, msg, .error, si, sug, mt⟩] = 75)
    ∧ (∀ extra, calculateLayoutScore (issues ++ [extra]) ≤ calculateLayoutScore issues) := by
  refine ⟨score_eq issues, ?_, ?_, rfl, ?_, ?_⟩
  · rw [score_eq]; exact le_max_left _ _
  · rw [score_eq]
    refine max_le (by norm_num) ?_
    have h1 : (0 : Int) ≤ countSeverity .error issues := Int.ofNat_nonneg _
    have h2 : (0 : Int) ≤ countSeverity .warning issues := Int.ofNat_nonneg _
    have h3 : (0 : Int) ≤ countSeverity .info issues := Int.ofNat_nonneg _
    omega
  · intro t msg si sug mt
    simp [calculateLayoutScore, severityPenalty]
  · intro extra
    rw [score_eq, score_eq]
    refine max_le_max le_rfl ?_
    have happ : ∀ sev, countSeverity sev (issues ++ [extra]) =
        countSeverity sev issues + countSeverity sev [extra] := by
      intro sev; simp [countSeverity, List.countP_append]
    rw [happ, happ, happ]
    have h1 : (0 : Int) ≤ countSeverity .error [extra] := Int.ofNat_nonneg _
    have h2 : (0 : Int) ≤ countSeverity .warning [extra] := Int.ofNat_nonneg _
    have h3 : (0 : Int) ≤ countSeverity .info [extra] := Int.ofNat_nonneg _
    omega

theorem checkEmptySlide_fields (slide : Slide) (issue : LayoutIssue)
    (h : checkEmptySlide slide = some issue) :
    issue.slideIndex = slide.index ∧ issue.type = .emptySlide := by
  unfold checkEmptySlide at h
  split at h
  · cases h; exact ⟨rfl, rfl⟩
  · exact Option.noConfusion h

theorem checkMissingTitle_fields (slide : Slide) (issue : LayoutIssue)
    (h : checkMissingTitle slide = some issue) :
    issue.slideIndex = slide.index ∧ issue.type = .missingTitle := by
  unfold checkMissingTitle at h
  split at h
  · exact Option.noConfusion h
  · split at h
    · exact Option.noConfusion h
    · cases h; exact ⟨rfl, rfl⟩

theorem checkTextLength_fields (slide : Slide) (config : MergedLayoutConfig)
    (issue : LayoutIssue) (h : issue ∈ checkTextLength slide config) :
    issue.slideIndex = slide.index ∧ issue.type = .tooLongText := by
  unfold checkTextLength at h
  rcases List.mem_append.1 h with h1 | h1 <;> split at h1 <;>
    simp only [List.mem_singleton, List.not_mem_nil] at h1 <;>
    first
      | exact False.elim h1
      | (subst h1; exact ⟨rfl, rfl⟩)

theorem checkBulletCount_fields (slide : Slide) (config : MergedLayoutConfig)
    (issue : LayoutIssue) (h : checkBulletCount slide config = some issue) :
    issue.slideIndex = slide.index ∧ issue.type = .tooManyBullets := by
  unfold checkBulletCount at h
  split at h
  · cases h; exact ⟨rfl, rfl⟩
  · exact Option.noConfusion h

theorem checkImageTextCrowding_fields (slide : Slide) (config : MergedLayoutConfig)
    (issue : LayoutIssue) (h : checkImageTextCrowding slide config = some issue) :
    issue.slideIndex = slide.index ∧ issue.type = .imageTextCrowded := by
  unfold checkImageTextCrowding at h
  split at h
  · exact Option.noConfusion h
  · split at h
    · cases h; exact ⟨rfl, rfl⟩
    · exact Option.noConfusion h

theorem checkCodeBlocks_fields (slide : Slide) (issue : LayoutIssue)
    (h : issue ∈ checkCodeBlocks slide) :
    issue.slideIndex = slide.index ∧ issue.type = .tooLongText := by
  unfold checkCodeBlocks at h
  rw [List.mem_flatMap] at h
  obtain ⟨block, _, hmem⟩ := h
  split at hmem
  · simp only [List.mem_singleton] at hmem
    subst hmem
    exact ⟨rfl, rfl⟩
  · exact absurd hmem (List.not_mem_nil _)

theorem mem_optList {α : Type} {a : α} {o : Option α} (h : a ∈ optList o) :
    o = some a := by
  cases o with
  | none => exact absurd h (List.not_mem_nil _)
  | some b =>
    simp only [optList, List.mem_singleton] at h
    rw [h]

/-- Claim C10: every issue produced by the heuristic checker carries the
input slide's index as its `slideIndex`, and its type is one of the
five heuristic types (`empty-slide`, `missing-title`, `too-long-text`,
`too-many-bullets`, `image-text-crowded`); `overflow-detected` and
`font-too-small` are never produced. -/
theorem c10_issue_fields (slide : Slide) (config : LayoutCheckConfig)
    (issue : LayoutIssue) (h : issue ∈ checkSlideLayout slide config) :
    issue.slideIndex = slide.index ∧
    (issue.type = .emptySlide ∨ issue.type = .missingTitle ∨
      issue.type = .tooLongText ∨ issue.type = .tooManyBullets ∨
      issue.type = .imageTextCrowded) ∧
    issue.type ≠ .overflowDetected ∧ issue.type ≠ .fontTooSmall := by
  unfold checkSlideLayout at h
  have package : issue.slideIndex = slide.index →
      (issue.type = .emptySlide ∨ issue.type = .missingTitle ∨
        issue.type = .tooLongText ∨ issue.type = .tooManyBullets ∨
        issue.type = .imageTextCrowded) →
      issue.slideIndex = slide.index ∧
        (issue.type = .emptySlide ∨ issue.type = .missingTitle ∨
          issue.type = .tooLongText ∨ issue.type = .tooManyBullets ∨
          issue.type = .imageTextCrowded) ∧
        issue.type ≠ .overflowDetected ∧ issue.type ≠ .fontTooSmall := by
    intro hidx htype
    refine ⟨hidx, htype, ?_, ?_⟩ <;>
      rcases htype with ht | ht | ht | ht | ht <;> simp [ht]
  rcases List.mem_append.1 h with h5 | h6
  rcases List.mem_append.1 h5 with h4 | hcrowd
  rcases List.mem_append.1 h4 with h3 | hbullet
  rcases List.mem_append.1 h3 with h2 | htext
  rcases List.mem_append.1 h2 with hempty | htitle
  · obtain ⟨h1, h2⟩ := checkEmptySlide_fields slide issue (mem_optList hempty)
    exact package h1 (Or.inl h2)
  · obtain ⟨h1, h2⟩ := checkMissingTitle_fields slide issue (mem_optList htitle)
    exact package h1 (Or.inr (Or.inl h2))
  · obtain ⟨h1, h2⟩ := checkTextLength_fields slide (mergeConfig config) issue htext
    exact package h1 (Or.inr (Or.inr (Or.inl h2)))
  · obtain ⟨h1, h2⟩ := checkBulletCount_fields slide (mergeConfig config) issue
      (mem_optList hbullet)
    exact package h1 (Or.inr (Or.inr (Or.inr (Or.inl h2))))
  · obtain ⟨h1, h2⟩ := checkImageTextCrowding_fields slide (mergeConfig config) issue
      (mem_optList hcrowd)
    exact package h1 (Or.inr (Or.inr (Or.inr (Or.inr h2))))
  · obtain ⟨h1, h2⟩ := checkCodeBlocks_fields slide issue h6
    exact package h1 (Or.inr (Or.inr (Or.inl h2)))

/-- Concrete slide for the C10 witness. -/
def c10slide : Slide :=
  { index := 4, content := [], frontmatter := none, layout := none, notes := none }

/-- Concrete issue produced by the checker on `c10slide`. -/
def c10issue : LayoutIssue :=
  { type := .missingTitle,
    message := "Slide is missing a title or heading".data,
    severity := .info,
    slideIndex := 4,
    suggestion := some "Add a heading to improve slide structure".data,
    meta := none }

/-- Witness for C10 at a concrete slide and issue. -/
theorem c10_witness :
    c10issue.slideIndex = c10slide.index ∧
    (c10issue.type = .emptySlide ∨ c10issue.type = .missingTitle ∨
      c10issue.type = .tooLongText ∨ c10issue.type = .tooManyBullets ∨
      c10issue.type = .imageTextCrowded) ∧
    c10issue.type ≠ .overflowDetected ∧ c10issue.type ≠ .fontTooSmall :=
  c10_issue_fields c10slide emptyLayoutConfig c10issue (by decide)

/-- Scenario slide with seven bullet lines. -/
def c8slide7 : Slide :=
  { index := 0, content := "- a\n- b\n- c\n- d\n- e\n- f\n- g".data,
    frontmatter := none, layout := none, notes := none }

/-- Scenario slide with ten bullet lines. -/
def c8slide10 : Slide :=
  { index := 0, content := "- a\n- b\n- c\n- d\n- e\n- f\n- g\n- h\n- i\n- j".data,
    frontmatter := none, layout := none, notes := none }

/-- Claim C8 (amended): the bullet check counts the regex matches of
`/^[\s]*[-*+]|\d+\./gm` (one per line-start bullet marker plus one per
digit-run-and-period occurrence anywhere), not lines; it emits at most
one `too-many-bullets` issue, exactly when the match count exceeds
`maxBulletsPerSlide`, with severity error exactly beyond 1.5x the
threshold and warning otherwise; with the default threshold 6, the
seven-bullet-line slide gets a single warning and the ten-bullet-line
slide a single error. -/
theorem c8_bullet_check (slide : Slide) (config : MergedLayoutConfig) :
    ((checkBulletCount slide config).isSome ↔
      countBullets slide.content > config.maxBulletsPerSlide)
    ∧ (∀ issue, checkBulletCount slide config = some issue →
        issue.type = .tooManyBullets ∧ issue.slideIndex = slide.index ∧
        (issue.severity = .error ↔
          2 * countBullets slide.content > 3 * config.maxBulletsPerSlide) ∧
        (issue.severity = .warning ↔
          ¬ 2 * countBullets slide.content > 3 * config.maxBulletsPerSlide))
    ∧ ((checkSlideLayout c8slide7 emptyLayoutConfig).filter
        (fun i => i.type == .tooManyBullets)).map (fun i => i.severity) = [.warning]
    ∧ ((checkSlideLayout c8slide10 emptyLayoutConfig).filter
        (fun i => i.type == .tooManyBullets)).map (fun i => i.severity) = [.error] := by
  refine ⟨?_, ?_, by decide, by decide⟩
  · unfold checkBulletCount
    split
    · next hgt => simp [hgt]
    · next hgt => simp [hgt]
  · intro issue h
    unfold checkBulletCount at h
    split at h
    · cases h
      refine ⟨rfl, rfl, ?_, ?_⟩ <;>
        by_cases hc : 2 * countBullets slide.content > 3 * config.maxBulletsPerSlide <;>
        simp [hc]
    · exact Option.noConfusion h

/-- Slide refuting C8's line-based counting: a single line whose text
contains seven digit-period occurrences. -/
def c8slideCounter : Slide :=
  { index := 0, content := "see 1. 2. 3. 4. 5. 6. 7.".data,
    frontmatter := none, layout := none, notes := none }

/-- Counterexample for C8 as stated: by the claim's line counting this
slide has zero bullet lines, which does not exceed the default
threshold 6, yet the source emits a `too-many-bullets` issue because
its regex counts seven matches on the single line. -/
theorem c8_counterexample :
    bulletLinesSpec c8slideCounter.content = 0 ∧
    ¬ bulletLinesSpec c8slideCounter.content >
        (mergeConfig emptyLayoutConfig).maxBulletsPerSlide ∧
    countBullets c8slideCounter.content = 7 ∧
    (checkBulletCount c8slideCounter (mergeConfig emptyLayoutConfig)).isSome = true := by
  decide

/-- Witness for C8 at the seven-bullet slide and its concrete issue. -/
theorem c8_witness :
    (⟨.tooManyBullets, "Slide has 7 bullet points (max recommended: 6)".data,
      .warning, 0, some "Consolidate bullet points or split into multiple slides".data,
      some ⟨none, some 7, none, none⟩⟩ : LayoutIssue).type = .tooManyBullets ∧
    (⟨.tooManyBullets, "Slide has 7 bullet points (max recommended: 6)".data,
      .warning, 0, some "Consolidate bullet points or split into multiple slides".data,
      some ⟨none, some 7, none, none⟩⟩ : LayoutIssue).slideIndex = c8slide7.index ∧
    ((⟨.tooManyBullets, "Slide has 7 bullet points (max recommended: 6)".data,
      .warning, 0, some "Consolidate bullet points or split into multiple slides".data,
      some ⟨none, some 7, none, none⟩⟩ : LayoutIssue).severity = .error ↔
        2 * countBullets c8slide7.content > 3 * (mergeConfig emptyLayoutConfig).maxBulletsPerSlide) ∧
    ((⟨.tooManyBullets, "Slide has 7 bullet points (max recommended: 6)".data,
      .warning, 0, some "Consolidate bullet points or split into multiple slides".data,
      some ⟨none, some 7, none, none⟩⟩ : LayoutIssue).severity = .warning ↔
        ¬ 2 * countBullets c8slide7.content > 3 * (mergeConfig emptyLayoutConfig).maxBulletsPerSlide) :=
  (c8_bullet_check c8slide7 (mergeConfig emptyLayoutConfig)).2.1 _ (by decide)

theorem idxOkB_reindexFrom : ∀ (l : List Slide) (k : Int),
    idxOkB k (reindexFrom k l) = true := by
  intro l
  induction l with
  | nil => intro k; rfl
  | cons s rest ih =>
    intro k
    simp [reindexFrom, idxOkB, ih (k + 1)]

theorem idxOkB_updAt : ∀ (l : List Slide) (n : Nat) (c : List Char) (k : Int),
    idxOkB k (updAt l n c) = idxOkB k l := by
  intro l
  induction l with
  | nil => intro n c k; rfl
  | cons s rest ih =>
    intro n c k
    cases n with
    | zero => simp [updAt, idxOkB]
    | succ m => simp [updAt, idxOkB, ih]

/-- Claim C6 (amended): only `updateSlide` validates its index — it
fails exactly when the index is outside `[0, length)`; `insertSlide`
clamps the position as `splice` does and `removeSlide` silently
removes nothing when the index is out of range, both always returning
a deck; `insertSlide` and `removeSlide` re-derive contiguous 0-based
indices, while `updateSlide` preserves the existing `index` fields, so
its result is contiguously indexed whenever its input was. -/
theorem c6_index_validation (deck : SlideDeck) (index : Int) (content : List Char)
    (init : SlideInit) :
    ((updateSlide deck index content).isOk = true ↔
      0 ≤ index ∧ index < (deck.slides.length : Int))
    ∧ idxOkB 0 (insertSlide deck index init).slides = true
    ∧ idxOkB 0 (removeSlide deck index).slides = true
    ∧ (∀ deck2, idxOkB 0 deck.slides = true →
        updateSlide deck index content = Except.ok deck2 →
        idxOkB 0 deck2.slides = true) := by
  refine ⟨?_, idxOkB_reindexFrom _ 0, idxOkB_reindexFrom _ 0, ?_⟩
  · unfold updateSlide
    split
    · next hcond =>
      constructor
      · intro hfalse; exact Bool.noConfusion hfalse
      · rintro ⟨h1, h2⟩; rcases hcond with hc | hc <;> omega
    · next hcond =>
      push_neg at hcond
      constructor
      · intro _; exact ⟨hcond.1, hcond.2⟩
      · intro _; rfl
  · intro deck2 hwell hok
    unfold updateSlide at hok
    split at hok
    · exact Except.noConfusion hok
    · cases hok
      simpa [idxOkB_updAt] using hwell

/-- One-slide deck for the C6 counterexample and witness. -/
def c6deck : SlideDeck :=
  { frontmatter := [],
    slides := [{ index := 0, content := "a".data, frontmatter := none,
                 layout := none, notes := none }],
    raw := "a".data }

/-- Counterexample for C6 as stated: at the invalid index 5 of a
one-slide deck, `removeSlide` does not fail — it returns the deck
unchanged — and at the invalid insert position 9, `insertSlide` does
not fail either — it appends the slide at the end. -/
theorem c6_counterexample :
    removeSlide c6deck 5 = c6deck ∧
    (insertSlide c6deck 9 ⟨none, none, none, none⟩).slides.length = 2 := by
  decide

/-- Witness for C6: the amended theorem applied at the one-slide deck,
index 0 and a concrete replacement content. -/
theorem c6_witness :
    idxOkB 0 (SlideDeck.mk []
      [{ index := 0, content := "b".data, frontmatter := none,
         layout := none, notes := none }] "a".data).slides = true :=
  (c6_index_validation c6deck 0 "b".data ⟨none, none, none, none⟩).2.2.2
    _ (by decide) (by rfl)

theorem fixLoop_calls (collab : Collaborator) (layoutConfig : LayoutCheckConfig)
    (baseSlide : Slide) (autoFix : Bool) (maxIterations : Nat) :
    ∀ (fuel : Nat) (st : LoopState), st.calls = st.iterations →
      (fixLoop collab layoutConfig baseSlide autoFix maxIterations fuel st).calls =
        (fixLoop collab layoutConfig baseSlide autoFix maxIterations fuel st).iterations ∧
      (fixLoop collab layoutConfig baseSlide autoFix maxIterations fuel st).iterations ≤
        max st.iterations maxIterations := by
  intro fuel
  induction fuel with
  | zero => intro st h; exact ⟨h, le_max_left _ _⟩
  | succ n ih =>
    intro st h
    simp only [fixLoop]
    split
    · next hguard =>
      obtain ⟨-, -, hlt⟩ := hguard
      have hcalls : st.calls + 1 = st.iterations + 1 := by rw [h]
      split
      · refine ⟨hcalls, ?_⟩
        show st.iterations + 1 ≤ max st.iterations maxIterations
        exact le_trans (by omega) (le_max_right _ _)
      · obtain ⟨h1, h2⟩ := ih
          { content := collab.fixLayoutIssues st.content st.issues,
            issues := checkSlideLayout
              { baseSlide with content := collab.fixLayoutIssues st.content st.issues }
              layoutConfig,
            iterations := st.iterations + 1, calls := st.calls + 1 }
          hcalls
        refine ⟨h1, le_trans h2 ?_⟩
        show max (st.iterations + 1) maxIterations ≤ max st.iterations maxIterations
        rw [max_eq_right (show st.iterations + 1 ≤ maxIterations by omega)]
        exact le_max_right _ _
    · exact ⟨h, le_max_left _ _⟩

/-- Claim C1 (amended): a single `editSlideWithFeedback` call makes
exactly `iterations` collaborator calls (the `iterations` field counts
the collaborator calls made, `editSlide` and `fixLayoutIssues`
combined), and that number is at most `max 1 maxIterations` — the
initial `editSlide` call is unconditional, so with `maxIterations = 0`
one call is still made, while for every `maxIterations ≥ 1` the number
of calls is at most `maxIterations`. -/
theorem c1_call_bound (collab : Collaborator) (layoutConfig : LayoutCheckConfig)
    (deck : SlideDeck) (slideIndex : Int) (options : EnhanceOptions) :
    (editSlideWithFeedback collab layoutConfig deck slideIndex options).2 =
      (editSlideWithFeedback collab layoutConfig deck slideIndex options).1.iterations ∧
    (editSlideWithFeedback collab layoutConfig deck slideIndex options).2 ≤
      max 1 (options.maxIterations.getD DEFAULT_MAX_FIX_ITERATIONS) := by
  cases hs : getSlide deck slideIndex with
  | none => simp [editSlideWithFeedback, hs]
  | some currentSlide =>
    simp only [editSlideWithFeedback, hs]
    obtain ⟨h1, h2⟩ := fixLoop_calls collab layoutConfig currentSlide
      (options.autoFix.getD true) (options.maxIterations.getD DEFAULT_MAX_FIX_ITERATIONS)
      (options.maxIterations.getD DEFAULT_MAX_FIX_ITERATIONS)
      { content := collab.editSlide currentSlide.content options.instruction [],
        issues := checkSlideLayout
          { currentSlide with
              content := collab.editSlide currentSlide.content options.instruction [] }
          layoutConfig,
        iterations := 1, calls := 1 }
      rfl
    exact ⟨h1, by rw [h1]; exact h2⟩

/-- One-slide deck for the C1 counterexample. -/
def c1deck : SlideDeck :=
  { frontmatter := [],
    slides := [{ index := 0, content := "hi".data, frontmatter := none,
                 layout := none, notes := none }],
    raw := "hi".data }

/-- Identity collaborator for the C1 counterexample. -/
def c1collab : Collaborator :=
  { editSlide := fun content _ _ => content,
    fixLayoutIssues := fun content _ => content }

/-- Options with an explicit `maxIterations` of 0. -/
def c1options : EnhanceOptions :=
  { instruction := "improve".data, autoFix := some true, maxIterations := some 0 }

/-- Counterexample for C1 as stated: with `maxIterations = 0` and a
valid slide index, the orchestrator still makes the unconditional
initial `editSlide` call, so a single request issues one collaborator
call, which exceeds `maxIterations`. -/
theorem c1_counterexample :
    (editSlideWithFeedback c1collab emptyLayoutConfig c1deck 0 c1options).2 = 1 ∧
    ¬ (editSlideWithFeedback c1collab emptyLayoutConfig c1deck 0 c1options).2 ≤
        c1options.maxIterations.getD DEFAULT_MAX_FIX_ITERATIONS := by
  refine ⟨?_, ?_⟩
  · rfl
  · intro hle
    have h1 : (editSlideWithFeedback c1collab emptyLayoutConfig c1deck 0 c1options).2 = 1 := rfl
    rw [h1] at hle
    exact absurd hle (by decide)

theorem fixLoop_no_autofix (collab : Collaborator) (layoutConfig : LayoutCheckConfig)
    (baseSlide : Slide) (maxIterations : Nat) :
    ∀ (fuel : Nat) (st : LoopState),
      fixLoop collab layoutConfig baseSlide false maxIterations fuel st = st := by
  intro fuel st
  cases fuel <;> simp [fixLoop]

/-- Claim C5: with `autoFix = false` and a valid slide index, exactly
one collaborator call (the initial `editSlide`) is made, regardless of
the layout issues detected on the edited content; the returned
`iterations` is 1 and the result is successful. -/
theorem c5_autofix_off (collab : Collaborator) (layoutConfig : LayoutCheckConfig)
    (deck : SlideDeck) (slideIndex : Int) (options : EnhanceOptions) (s : Slide)
    (hs : getSlide deck slideIndex = some s) (hfix : options.autoFix = some false) :
    (editSlideWithFeedback collab layoutConfig deck slideIndex options).2 = 1 ∧
    (editSlideWithFeedback collab layoutConfig deck slideIndex options).1.iterations = 1 ∧
    (editSlideWithFeedback collab layoutConfig deck slideIndex options).1.success = true := by
  refine ⟨?_, ?_, ?_⟩ <;>
    simp [editSlideWithFeedback, hs, hfix, fixLoop_no_autofix]

/-- One-slide deck for the C5 witness. -/
def c5deck : SlideDeck :=
  { frontmatter := [],
    slides := [{ index := 0, content := "hello".data, frontmatter := none,
                 layout := none, notes := none }],
    raw := "hello".data }

/-- Identity collaborator for the C5 witness. -/
def c5collab : Collaborator :=
  { editSlide := fun content _ _ => content,
    fixLayoutIssues := fun content _ => content }

/-- Options with `autoFix` disabled. -/
def c5options : EnhanceOptions :=
  { instruction := "shorten".data, autoFix := some false, maxIterations := none }

/-- Witness for C5 at a concrete deck, collaborator and options. -/
theorem c5_witness :
    (editSlideWithFeedback c5collab emptyLayoutConfig c5deck 0 c5options).2 = 1 ∧
    (editSlideWithFeedback c5collab emptyLayoutConfig c5deck 0 c5options).1.iterations = 1 ∧
    (editSlideWithFeedback c5collab emptyLayoutConfig c5deck 0 c5options).1.success = true :=
  c5_autofix_off c5collab emptyLayoutConfig c5deck 0 c5options
    { index := 0, content := "hello".data, frontmatter := none,
      layout := none, notes := none } (by rfl) (by rfl)

/-- Clean-shaped collaborator output: already trimmed, not starting
with a code fence, and with no single-line explanation prefix shorter
than 100 characters before the first `---`.  This is the reading of
"already-clean text" under which the no-op half of the cleanup claim
holds. -/
def cleanShape (s : List Char) : Bool :=
  (jsTrim s == s) && !("```".data.isPrefixOf s) &&
    (match indexOfSub "---".data s with
     | some start =>
       if start > 0 then
         (jsTrim (s.take start)).contains '\n' ||
           decide ((jsTrim (s.take start)).length ≥ 100)
       else true
     | none => true)

theorem isPrefixOf_of_isPrefixOf_trans {p q s : List Char}
    (hpq : p.isPrefixOf q = true) (hqs : q.isPrefixOf s = true) :
    p.isPrefixOf s = true := by
  rw [List.isPrefixOf_iff_prefix] at hpq hqs ⊢
  exact hpq.trans hqs

/-- Claim C9 (amended): `cleanMarkdownOutput` is a no-op on clean-shaped
text (trimmed, not fence-wrapped, no strippable explanation prefix);
it is not idempotent in general, because nested fence wrappers are
stripped one layer per application. -/
theorem c9_clean_noop (s : List Char) (h : cleanShape s = true) :
    cleanMarkdownOutput s = s := by
  unfold cleanShape at h
  rw [Bool.and_eq_true, Bool.and_eq_true] at h
  obtain ⟨⟨htrimB, hfenceB⟩, hpre⟩ := h
  have htrim : jsTrim s = s := by
    exact eq_of_beq htrimB
  have hfence : "```".data.isPrefixOf s = false := by
    cases hx : "```".data.isPrefixOf s with
    | false => rfl
    | true => rw [hx] at hfenceB; exact Bool.noConfusion hfenceB
  have hmd : "```markdown".data.isPrefixOf s = false := by
    cases hx : "```markdown".data.isPrefixOf s with
    | false => rfl
    | true =>
      rw [isPrefixOf_of_isPrefixOf_trans (by decide) hx] at hfence
      exact Bool.noConfusion hfence
  have hmd2 : "```md".data.isPrefixOf s = false := by
    cases hx : "```md".data.isPrefixOf s with
    | false => rfl
    | true =>
      rw [isPrefixOf_of_isPrefixOf_trans (by decide) hx] at hfence
      exact Bool.noConfusion hfence
  have hsl : "```slidev".data.isPrefixOf s = false := by
    cases hx : "```slidev".data.isPrefixOf s with
    | false => rfl
    | true =>
      rw [isPrefixOf_of_isPrefixOf_trans (by decide) hx] at hfence
      exact Bool.noConfusion hfence
  have hstage1 : cleanFenceStage s = s := by
    unfold cleanFenceStage
    rw [hmd, hmd2, hsl, hfence]
    simp
  have hstage2 : cleanPrefixStage s = s := by
    unfold cleanPrefixStage
    cases hidx : indexOfSub "---".data s with
    | none => rfl
    | some start =>
      rw [hidx] at hpre
      dsimp only at hpre ⊢
      split
      · next hstart =>
        rw [if_pos hstart] at hpre
        rcases (Bool.or_eq_true _ _).mp hpre with hnl | hlen
        · simp only [hnl, Bool.not_true, Bool.false_and, if_neg]
          simp
        · have hge : 100 ≤ (jsTrim (s.take start)).length := of_decide_eq_true hlen
          have hlt : ¬ (jsTrim (s.take start)).length < 100 := by omega
          simp [hlt]
      · rfl
  rw [cleanMarkdownOutput, htrim, hstage1, hstage2, htrim]

/-- Doubly fence-wrapped collaborator output. -/
def c9input : List Char :=
  "```markdown\n```markdown\nhi\n```\n```".data

/-- Counterexample for C9 as stated: one application of the cleanup
strips only the outer fence of a doubly-wrapped response, so a second
application produces a different (further stripped) string —
`cleanMarkdownOutput` is not idempotent. -/
theorem c9_counterexample :
    cleanMarkdownOutput c9input = "```markdown\nhi\n```".data ∧
    cleanMarkdownOutput (cleanMarkdownOutput c9input) = "hi".data ∧
    cleanMarkdownOutput (cleanMarkdownOutput c9input) ≠ cleanMarkdownOutput c9input := by
  decide

/-- Witness for C9: the no-op theorem applied to a concrete clean
string. -/
theorem c9_witness :
    cleanMarkdownOutput "# Title\n\n- first point\n- second point".data =
      "# Title\n\n- first point\n- second point".data :=
  c9_clean_noop "# Title\n\n- first point\n- second point".data (by decide)

/-- Claim C3 (amended): parsing never fails on the slide level —
`parseSlide` absorbs malformed per-slide frontmatter by keeping the
whole segment as content — but `parseSlidev` itself fails exactly when
the unguarded global `matter` call fails on malformed global
frontmatter. -/
theorem c3_parse_totality (input : List Char) :
    ((parseSlidev input).isOk = (matter (normalizeInput input)).isOk)
    ∧ (∀ (seg : List Char) (idx : Int) (inner rest : List Char),
        slideFrontmatterMatch seg = some (inner, rest) →
        (matter ("---\n".data ++ inner ++ "\n---".data)).isOk = false →
        parseSlide seg idx =
          { index := idx, content := seg, frontmatter := none, layout := none,
            notes := extractNotes seg }) := by
  constructor
  · unfold parseSlidev
    cases matter (normalizeInput input) with
    | error e => rfl
    | ok v => rfl
  · intro seg idx inner rest hmatch hfail
    unfold parseSlide
    rw [hmatch]
    dsimp only
    cases hm : matter ("---\n".data ++ inner ++ "\n---".data) with
    | error e => rfl
    | ok v =>
      rw [hm] at hfail
      exact Bool.noConfusion hfail

/-- Counterexample for C3 as stated: an input whose global frontmatter
block contains an unterminated flow sequence makes the unguarded
global `matter` call fail, so `parseSlidev` does not return a deck. -/
theorem c3_counterexample :
    (parseSlidev "---\n[broken\n---\nhello".data).isOk = false := by
  decide

/-- Witness for C3: the amended theorem applied at a segment whose own
frontmatter block is malformed. -/
theorem c3_witness :
    parseSlide "---\n[bad\n---".data 0 =
      { index := 0, content := "---\n[bad\n---".data, frontmatter := none,
        layout := none, notes := extractNotes "---\n[bad\n---".data } :=
  (c3_parse_totality []).2 "---\n[bad\n---".data 0 "[bad".data [] (by decide) (by decide)

/-- Claim C7 (amended): a parsed slide's content is fully characterized
by the frontmatter match — when the segment carries a frontmatter
block and its YAML parses, the block is stripped and content is
exactly the trimmed remainder after the match; when the block's YAML
fails, and when there is no block at all, content is the whole
segment verbatim.  The speaker notes are a trimmed extract of the
original segment; the notes extraction never alters content, so the
raw notes marker text in a slide body stays in content. -/
theorem c7_content_structure (seg : List Char) (idx : Int) :
    (∀ inner rest, slideFrontmatterMatch seg = some (inner, rest) →
      ((matter ("---\n".data ++ inner ++ "\n---".data)).isOk = true →
        (parseSlide seg idx).content = jsTrim rest) ∧
      ((matter ("---\n".data ++ inner ++ "\n---".data)).isOk = false →
        (parseSlide seg idx).content = seg))
    ∧ (slideFrontmatterMatch seg = none → (parseSlide seg idx).content = seg)
    ∧ (parseSlide seg idx).notes = extractNotes seg := by
  unfold parseSlide
  cases hm : slideFrontmatterMatch seg with
  | none =>
    refine ⟨?_, fun _ => rfl, rfl⟩
    intro inner rest h
    exact Option.noConfusion h
  | some p =>
    obtain ⟨inner, rest⟩ := p
    dsimp only
    refine ⟨?_, ?_, ?_⟩
    · intro inner1 rest1 h
      injection h with h2
      injection h2 with h3 h4
      subst h3
      subst h4
      cases hmt : matter ("---\n".data ++ inner ++ "\n---".data) with
      | ok v =>
        obtain ⟨data, rest2⟩ := v
        exact ⟨fun _ => rfl, fun hfail => Bool.noConfusion hfail⟩
      | error e =>
        exact ⟨fun htrue => Bool.noConfusion htrue, fun _ => rfl⟩
    · intro h
      exact Option.noConfusion h
    · cases matter ("---\n".data ++ inner ++ "\n---".data) with
      | ok v =>
        obtain ⟨data, rest2⟩ := v
        rfl
      | error e => rfl

/-- Slide text whose notes marker must, per the claim, be absent from
the parsed content. -/
def c7input : List Char :=
  "Hello everyone today\n\n<!-- notes -->\nremember the demo".data

/-- Counterexample for C7 as stated: the parsed slide's `content` still
contains the raw notes marker text (the marker comment and the note
following it); only a copy is extracted into `notes`. -/
theorem c7_counterexample :
    (parseSlidev c7input).toOption.map (fun deck => deck.slides.map fun slide =>
      (containsSub "<!-- notes -->".data slide.content, slide.content, slide.notes)) =
    some [(true, c7input, some "remember the demo".data)] := by
  decide

/-- The deck text of the C2 round-trip failure: ordinary global
frontmatter and one slide. -/
def c2input : List Char :=
  "---\ntitle: x\n---\n\nhello".data

/-- Claim C2 (code-bug evaluation): parsing the input yields one slide
with content `hello`, but serializing and re-parsing yields one slide
whose content begins with a spurious `---` block — `stringifySlidev`
pushes an extra `---` separator before the first slide whenever the
global frontmatter is non-empty, so the round-trip law fails beyond
whitespace normalization on any deck with global frontmatter. -/
theorem c2_roundtrip_failure :
    (parseSlidev c2input).toOption.map (fun deck => deck.slides.map fun s => s.content) =
      some ["hello".data]
    ∧ ((parseSlidev c2input).toOption.bind fun deck =>
        (parseSlidev (stringifySlidev deck)).toOption.map fun deck2 =>
          deck2.slides.map fun s => s.content) =
      some ["---\n\nhello".data]
    ∧ wsTokens [] "---\n\nhello".data ≠ wsTokens [] "hello".data := by
  decide

/-- Witness for C1: the amended call-count theorem at a concrete
collaborator, deck and options. -/
theorem c1_witness :
    (editSlideWithFeedback c1collab emptyLayoutConfig c1deck 0 c1options).2 =
      (editSlideWithFeedback c1collab emptyLayoutConfig c1deck 0 c1options).1.iterations ∧
    (editSlideWithFeedback c1collab emptyLayoutConfig c1deck 0 c1options).2 ≤
      max 1 (c1options.maxIterations.getD DEFAULT_MAX_FIX_ITERATIONS) :=
  c1_call_bound c1collab emptyLayoutConfig c1deck 0 c1options

/-- Witness for C4: the score theorem evaluated at the empty issue
list. -/
theorem c4_witness : calculateLayoutScore [] = 100 :=
  (c4_score_function []).2.2.2.1

/-- Witness for C7: the content-structure theorem applied at a concrete
segment with a well-formed frontmatter block, discharging both
hypotheses (the frontmatter match and the successful YAML parse). -/
theorem c7_witness :
    (parseSlide "---\nlayout: center\n---\nBody <!-- notes -->\nkept".data 3).content =
      jsTrim "Body <!-- notes -->\nkept".data :=
  ((c7_content_structure "---\nlayout: center\n---\nBody <!-- notes -->\nkept".data 3).1
    "layout: center".data "Body <!-- notes -->\nkept".data (by decide)).1 (by decide)

end SlidevAI
